import Mathlib

/-!
Shallow embedding of `src/streamlit-app/app.py` (a Streamlit upload portal
that stages CSV rows in object storage, bulk-loads them into a warehouse
staging table, and reconciles them into a fact table with a SQL MERGE).

Part 1 models the control flow of `process_file` (lines 50-176) as a pure
function producing the list of external-service calls it makes (the trace)
together with its outcome.  Exceptions of the Python body are made explicit
in a `BodyOutcome`; the three `except` handlers of `process_file` are the
wrapper turning a raised exception into a normal return.

Part 2 models the semantics of the `merge_query` SQL statement
(lines 105-141) over explicit staging and fact tables, with SQL
three-valued equality on nullable columns (`NULL = x` is not true) and
BigQuery MERGE semantics (source rows are matched against the target table
as it stood when the statement started).
-/

/-- A parsed CSV: `pd.read_csv` result after `df.where(pd.notnull(df), None)`.
Columns are names; each row is a list of nullable cell values. -/
structure DataFrame where
  columns : List String
  rows : List (List (Option String))
  deriving DecidableEq, Repr

/-- Outcome of `pd.read_csv(uploaded_file)`: the empty-file error, the
malformed-CSV error, or a dataframe. -/
inductive ParseResult where
  | emptyData
  | parserError
  | ok (df : DataFrame)
  deriving DecidableEq, Repr

/-- Python exceptions that the body of `process_file` can raise:
`pd.errors.EmptyDataError`, `pd.errors.ParserError`, the `ValueError`
raised on missing required columns (carrying the missing set), and any
failure raised by an SDK call (upload, load job, query job). -/
inductive Exc where
  | emptyDataError
  | parserError
  | valueError (missing : List String)
  | sdkError (op : String)
  deriving DecidableEq, Repr

/-- Result of `bq.insert_rows_json` inside `log_to_bigquery`: either the
client raises, or it returns a (possibly empty) list of row errors. -/
structure LogEnv where
  insertResult : Except String (List String)

/-- Observable behaviour of one `log_to_bigquery` call: the row was
inserted, row errors were printed, or the caught exception was printed. -/
inductive LogOutcome where
  | logged
  | printedRowErrors
  | printedFailure
  deriving DecidableEq, Repr

/-- Model of `bq.insert_rows_json(log_table, [log_data])` (line 44). -/
def insert_rows_json (env : LogEnv) : Except String (List String) :=
  env.insertResult

/-- `log_to_bigquery` (lines 34-48): tries the warehouse insert; prints
returned row errors; catches any exception and prints it.  The `Except`
codomain records whether an exception escapes to the caller. -/
def log_to_bigquery (env : LogEnv) (message status operation : String) :
    Except String LogOutcome :=
  match insert_rows_json env with
  | Except.error _ => Except.ok LogOutcome.printedFailure
  | Except.ok errs =>
      Except.ok (if errs.isEmpty then LogOutcome.logged else LogOutcome.printedRowErrors)

/-- One call to an external managed service made by the pipeline:
the bucket-existence check (`gcs.get_bucket`), a logging insert
(`log_to_bigquery`'s warehouse insert), the object upload
(`blob.upload_from_string`, carrying the serialized dataframe), a blob
deletion (never emitted by this code; present so the frame claim about
orphaned staged objects is expressible), the staging load job
(`bq.load_table_from_uri`), and the MERGE query (`bq.query`). -/
inductive PipeEvent where
  | getBucket
  | logInsert (status operation : String)
  | uploadBlob (content : DataFrame)
  | deleteBlob (content : DataFrame)
  | loadJob
  | mergeExec
  deriving DecidableEq, Repr

/-- Environment of one `process_file` run: whether each external call
succeeds, the configured `MAX_ROWS`, and the logging client's behaviour. -/
structure PipeEnv where
  bucketOk : Bool
  uploadOk : Bool
  loadOk : Bool
  mergeOk : Bool
  maxRows : Nat
  logEnv : LogEnv

/-- How the `try` body of `process_file` ends: the early `return` after a
failed bucket validation, normal completion, or a raised exception. -/
inductive BodyOutcome where
  | earlyReturn
  | completed
  | raised (e : Exc)
  deriving DecidableEq, Repr

/-- `validate_gcs_bucket` (lines 25-32): performs `gcs.get_bucket` and
reports success; its own handler swallows the exception. -/
def validate_gcs_bucket (env : PipeEnv) : List PipeEvent × Bool :=
  ([PipeEvent.getBucket], env.bucketOk)

/-- `required_cols` (line 69). -/
def required_cols : List String := ["Date and Time", "Rating", "Location ID"]

/-- `required_cols.issubset(df.columns)` (line 70). -/
def issubset (req cols : List String) : Bool :=
  req.all (fun c => decide (c ∈ cols))

/-- `required_cols - set(df.columns)` (line 71): the required columns not
present in the dataframe. -/
def missingCols (df : DataFrame) : List String :=
  required_cols.filter (fun c => !(decide (c ∈ df.columns)))

/-- The row cap (lines 64-66): `df.head(MAX_ROWS)` keeps the first
`MAX_ROWS` rows, and is applied only when the dataframe is larger. -/
def truncate (maxRows : Nat) (df : DataFrame) : DataFrame :=
  if df.rows.length > maxRows then { df with rows := df.rows.take maxRows } else df

/-- The `try` body of `process_file` (lines 52-160): bucket validation,
CSV read, row cap, column validation, upload, staging load, MERGE.  Each
branch lists the external calls made up to that point, in order. -/
def processBody (env : PipeEnv) (parse : ParseResult) : List PipeEvent × BodyOutcome :=
  if env.bucketOk = false then
    ([PipeEvent.getBucket, PipeEvent.logInsert "ERROR" "VALIDATION"], BodyOutcome.earlyReturn)
  else
    match parse with
    | ParseResult.emptyData => ([PipeEvent.getBucket], BodyOutcome.raised Exc.emptyDataError)
    | ParseResult.parserError => ([PipeEvent.getBucket], BodyOutcome.raised Exc.parserError)
    | ParseResult.ok df0 =>
      let df := truncate env.maxRows df0
      if issubset required_cols df.columns = false then
        ([PipeEvent.getBucket, PipeEvent.logInsert "ERROR" "VALIDATION"],
          BodyOutcome.raised (Exc.valueError (missingCols df)))
      else if env.uploadOk = false then
        ([PipeEvent.getBucket, PipeEvent.uploadBlob df],
          BodyOutcome.raised (Exc.sdkError "UPLOAD"))
      else if env.loadOk = false then
        ([PipeEvent.getBucket, PipeEvent.uploadBlob df, PipeEvent.loadJob],
          BodyOutcome.raised (Exc.sdkError "LOAD"))
      else if env.mergeOk = false then
        ([PipeEvent.getBucket, PipeEvent.uploadBlob df, PipeEvent.loadJob,
          PipeEvent.logInsert "SUCCESS" "STAGING_LOAD", PipeEvent.mergeExec],
          BodyOutcome.raised (Exc.sdkError "MERGE"))
      else
        ([PipeEvent.getBucket, PipeEvent.uploadBlob df, PipeEvent.loadJob,
          PipeEvent.logInsert "SUCCESS" "STAGING_LOAD", PipeEvent.mergeExec,
          PipeEvent.logInsert "SUCCESS" "FACT_UPDATE"],
          BodyOutcome.completed)

/-- Which of the three `except` clauses (lines 162-174) catches an
exception: the empty-data handler, the parser-error handler, or the
catch-all `except Exception`. -/
inductive ExcHandler where
  | emptyData
  | parserFmt
  | catchAll
  deriving DecidableEq, Repr

/-- Python dispatch over the three handlers: first matching clause. -/
def handlerFor : Exc → ExcHandler
  | Exc.emptyDataError => ExcHandler.emptyData
  | Exc.parserError => ExcHandler.parserFmt
  | Exc.valueError _ => ExcHandler.catchAll
  | Exc.sdkError _ => ExcHandler.catchAll

/-- The `operation` string each handler passes to `log_to_bigquery`. -/
def handlerLogOp : ExcHandler → String
  | ExcHandler.emptyData => "FILE_PROCESSING"
  | ExcHandler.parserFmt => "FILE_PROCESSING"
  | ExcHandler.catchAll => "PROCESSING"

/-- How a `process_file` call ends, seen by its caller. -/
inductive PipeResult where
  | earlyReturn
  | success
  | handled (h : ExcHandler)
  deriving DecidableEq, Repr

/-- `process_file` (lines 50-176): the body wrapped in the three exception
handlers.  The `Except` codomain records whether an exception could escape
to the caller; every branch returns `Except.ok`. -/
def process_file (env : PipeEnv) (parse : ParseResult) :
    Except Exc (List PipeEvent × PipeResult) :=
  match processBody env parse with
  | (tr, BodyOutcome.earlyReturn) => Except.ok (tr, PipeResult.earlyReturn)
  | (tr, BodyOutcome.completed) => Except.ok (tr, PipeResult.success)
  | (tr, BodyOutcome.raised e) =>
      Except.ok (tr ++ [PipeEvent.logInsert "ERROR" (handlerLogOp (handlerFor e))],
        PipeResult.handled (handlerFor e))

/-!
Part 2: semantics of `merge_query` (lines 105-141).

Timestamps are modelled as integer seconds since the epoch; nullable SQL
columns as `Option`.  `EXTRACT(DATE FROM ts)` becomes floor division by
86400; `INTERVAL 24 HOUR` is 86400 seconds.  `GENERATE_UUID()` is modelled
by an id supply: each source row receives the next id from a counter that
starts at a base value fresh for the run.
-/

/-- One row of the staging table, as loaded from the uploaded JSONL:
`Date and Time`, `Name`, `Location ID`, `Rating`, `Review`, `Reply`.
Absent JSON fields are NULL. -/
structure StagingRow where
  dateAndTime : Option Int
  name : Option String
  locationId : Option String
  rating : Option Int
  review : Option String
  reply : Option String
  deriving DecidableEq, Repr

/-- One row of the fact table, with the columns the MERGE inserts. -/
structure FactRow where
  review_id : Nat
  location_id : Option String
  review_date : Option Int
  rating : Option Int
  review_length : Option Nat
  reply_length : Option Nat
  has_review : Nat
  has_reply : Nat
  review_text : Option String
  reply_text : Option String
  customer_name : Option String
  review_timestamp : Option Int
  etl_load_time : Int
  deriving DecidableEq, Repr

/-- SQL equality on nullable values: `NULL = x` is not true, so the
comparison only holds when both sides are non-NULL and equal. -/
def sqlEq {α : Type} [DecidableEq α] : Option α → Option α → Bool
  | some a, some b => decide (a = b)
  | _, _ => false

/-- `EXTRACT(DATE FROM ts)` on an epoch-seconds timestamp: the day number,
by floor division. -/
def extractDate (t : Int) : Int := Int.fdiv t 86400

/-- Seconds in `INTERVAL 24 HOUR`. -/
def hours24 : Int := 86400

/-- The source filter of the MERGE (line 126): the row's `Date and Time`
is non-NULL and at least `CURRENT_TIMESTAMP() - 24 hours`. -/
def inWindow (now : Int) (s : StagingRow) : Bool :=
  match s.dateAndTime with
  | some t => decide (now - hours24 ≤ t)
  | none => false

/-- The projected source row of the MERGE (lines 108-124): derived fields
computed from a staging row, with `review_id` the generated identifier and
`etl_load_time` the statement's `CURRENT_TIMESTAMP()`. -/
def deriveFact (now : Int) (id : Nat) (s : StagingRow) : FactRow :=
  { review_id := id
    location_id := s.locationId
    review_date := s.dateAndTime.map extractDate
    rating := s.rating
    review_length := s.review.map String.length
    reply_length := s.reply.map String.length
    has_review := if s.review = none then 0 else 1
    has_reply := if s.reply = none then 0 else 1
    review_text := s.review
    reply_text := s.reply
    customer_name := s.name
    review_timestamp := s.dateAndTime
    etl_load_time := now }

/-- The ON clause (lines 128-130): the target row matches the source row on
timestamp, customer name and location, under SQL equality. -/
def matchesKey (t : FactRow) (s : StagingRow) : Bool :=
  sqlEq t.review_timestamp s.dateAndTime &&
  sqlEq t.customer_name s.name &&
  sqlEq t.location_id s.locationId

/-- The rows the MERGE inserts, walking the staging table in order: a
source row inside the 24-hour window that matches no row of the target
table (as it stood at statement start) is inserted with the next generated
id; each source row consumes one id whether or not it is inserted. -/
def mergeInsertedAux (now : Int) (fact : List FactRow) :
    Nat → List StagingRow → List FactRow
  | _, [] => []
  | id, s :: rest =>
    if inWindow now s then
      if fact.any (fun t => matchesKey t s) then
        mergeInsertedAux now fact (id + 1) rest
      else
        deriveFact now id s :: mergeInsertedAux now fact (id + 1) rest
    else
      mergeInsertedAux now fact id rest

/-- The rows the MERGE statement inserts, ids starting at `base`. -/
def mergeInserted (now : Int) (base : Nat) (fact : List FactRow)
    (staging : List StagingRow) : List FactRow :=
  mergeInsertedAux now fact base staging

/-- The fact table after the MERGE: the old rows plus the inserted rows
(the statement has no WHEN MATCHED clause, so matched rows are untouched). -/
def mergeResult (now : Int) (base : Nat) (fact : List FactRow)
    (staging : List StagingRow) : List FactRow :=
  fact ++ mergeInserted now base fact staging

/-- `num_dml_affected_rows` of the MERGE: the number of inserted rows. -/
def mergeAffected (now : Int) (base : Nat) (fact : List FactRow)
    (staging : List StagingRow) : Nat :=
  (mergeInserted now base fact staging).length

/-- The uniqueness key of a fact row: (review_timestamp, customer_name,
location_id). -/
def factKey (t : FactRow) : Option Int × Option String × Option String :=
  (t.review_timestamp, t.customer_name, t.location_id)

/-- The corresponding key of a staging row. -/
def stagingKey (s : StagingRow) : Option Int × Option String × Option String :=
  (s.dateAndTime, s.name, s.locationId)

/-- The fact-table invariant: at most one row per key. -/
def uniqueKeys (l : List FactRow) : Prop :=
  (l.map factKey).Nodup

instance (l : List FactRow) : Decidable (uniqueKeys l) := by
  unfold uniqueKeys
  infer_instance

/-!
Part 3: facts about the pipeline control flow.
-/

theorem truncate_columns (m : Nat) (df : DataFrame) :
    (truncate m df).columns = df.columns := by
  unfold truncate
  split <;> rfl

theorem missingCols_truncate (m : Nat) (df : DataFrame) :
    missingCols (truncate m df) = missingCols df := by
  unfold missingCols
  rw [truncate_columns]

theorem truncate_rows_le (m : Nat) (df : DataFrame) :
    (truncate m df).rows.length ≤ m := by
  unfold truncate
  split_ifs with h
  · simp [List.length_take]
  · omega

theorem truncate_of_le (m : Nat) (df : DataFrame) (h : df.rows.length ≤ m) :
    truncate m df = df := by
  unfold truncate
  split_ifs with h2
  · omega
  · rfl

theorem truncate_of_lt (m : Nat) (df : DataFrame) (h : m < df.rows.length) :
    (truncate m df).rows = df.rows.take m := by
  unfold truncate
  split_ifs with h2
  · rfl
  · omega

theorem missingCols_eq_nil_iff (df : DataFrame) :
    missingCols df = [] ↔ issubset required_cols df.columns = true := by
  simp [missingCols, issubset, List.filter_eq_nil_iff, List.all_eq_true]

theorem mem_missingCols (df : DataFrame) (c : String) :
    c ∈ missingCols df ↔ c ∈ required_cols ∧ c ∉ df.columns := by
  simp [missingCols, List.mem_filter]

/-- An all-green environment with `MAX_ROWS = 2`. -/
def envW : PipeEnv :=
  { bucketOk := true, uploadOk := true, loadOk := true, mergeOk := true,
    maxRows := 2, logEnv := { insertResult := Except.ok [] } }

/-- A three-row dataframe with all required columns. -/
def dfW : DataFrame :=
  { columns := ["Date and Time", "Rating", "Location ID"],
    rows := [[some "a"], [some "b"], [some "c"]] }

/-- A dataframe missing two required columns. -/
def dfBad : DataFrame := { columns := ["Rating"], rows := [] }

/-- The trace of a fully successful run of `process_file envW` on `dfW`. -/
def trW : List PipeEvent :=
  [PipeEvent.getBucket, PipeEvent.uploadBlob (truncate envW.maxRows dfW),
    PipeEvent.loadJob, PipeEvent.logInsert "SUCCESS" "STAGING_LOAD",
    PipeEvent.mergeExec, PipeEvent.logInsert "SUCCESS" "FACT_UPDATE"]

/-- The trace of a run rejected for missing required columns. -/
def trBad : List PipeEvent :=
  [PipeEvent.getBucket, PipeEvent.logInsert "ERROR" "VALIDATION",
    PipeEvent.logInsert "ERROR" "PROCESSING"]

/-- Claim C1 is false as stated: on a file missing required columns,
`process_file` does make external calls — the `gcs.get_bucket`
bucket-existence check runs before column validation, and the rejection
path itself performs two warehouse logging inserts. -/
theorem C1_counterexample :
    process_file envW (ParseResult.ok dfBad) =
      Except.ok (trBad, PipeResult.handled ExcHandler.catchAll) ∧
    PipeEvent.getBucket ∈ trBad ∧
    PipeEvent.logInsert "ERROR" "VALIDATION" ∈ trBad ∧
    PipeEvent.logInsert "ERROR" "PROCESSING" ∈ trBad :=
  ⟨rfl, by simp [trBad], by simp [trBad], by simp [trBad]⟩

/-- Claim C1 (amended): a file missing at least one required column is
rejected before the object-storage upload, the warehouse load job, and the
MERGE statement — but after the bucket-existence check, and with logging
inserts on the rejection path. -/
theorem C1_theorem (env : PipeEnv) (df : DataFrame) (tr : List PipeEvent)
    (r : PipeResult)
    (hmiss : missingCols df ≠ [])
    (h : process_file env (ParseResult.ok df) = Except.ok (tr, r)) :
    (∀ c, PipeEvent.uploadBlob c ∉ tr) ∧
    PipeEvent.loadJob ∉ tr ∧ PipeEvent.mergeExec ∉ tr := by
  have hsub : issubset required_cols (truncate env.maxRows df).columns = false := by
    rw [truncate_columns]
    cases hb : issubset required_cols df.columns
    · rfl
    · exact absurd ((missingCols_eq_nil_iff df).mpr hb) hmiss
  cases hbk : env.bucketOk with
  | false =>
    simp [process_file, processBody, hbk] at h
    obtain ⟨h1, h2⟩ := h
    subst h1
    simp
  | true =>
    simp [process_file, processBody, hbk, hsub] at h
    obtain ⟨h1, h2⟩ := h
    subst h1
    simp

/-- Witness for the amended C1 at a concrete rejected file. -/
theorem C1_witness :
    (∀ c, PipeEvent.uploadBlob c ∉ trBad) ∧
    PipeEvent.loadJob ∉ trBad ∧ PipeEvent.mergeExec ∉ trBad :=
  C1_theorem envW dfBad trBad (PipeResult.handled ExcHandler.catchAll)
    (by decide) rfl

/-- Claim C4: every uploaded object is the parsed dataframe capped at
`MAX_ROWS` rows — an input larger than the cap is cut to exactly its first
`MAX_ROWS` rows before upload, a smaller input is uploaded unchanged, and
the uploaded object never holds more than `MAX_ROWS` records. -/
theorem C4_theorem (env : PipeEnv) (df : DataFrame) (tr : List PipeEvent)
    (r : PipeResult)
    (h : process_file env (ParseResult.ok df) = Except.ok (tr, r)) :
    (∀ c, PipeEvent.uploadBlob c ∈ tr →
      c = truncate env.maxRows df ∧ c.rows.length ≤ env.maxRows) ∧
    (env.bucketOk = true → missingCols df = [] →
      PipeEvent.uploadBlob (truncate env.maxRows df) ∈ tr) ∧
    (df.rows.length ≤ env.maxRows → truncate env.maxRows df = df) ∧
    (env.maxRows < df.rows.length →
      (truncate env.maxRows df).rows = df.rows.take env.maxRows) := by
  refine ⟨?_, ?_, truncate_of_le env.maxRows df, truncate_of_lt env.maxRows df⟩
  · intro c hc
    cases hbk : env.bucketOk with
    | false =>
      simp [process_file, processBody, hbk] at h
      obtain ⟨h1, h2⟩ := h
      subst h1
      simp at hc
    | true =>
      cases hsub : issubset required_cols (truncate env.maxRows df).columns with
      | false =>
        simp [process_file, processBody, hbk, hsub] at h
        obtain ⟨h1, h2⟩ := h
        subst h1
        simp at hc
      | true =>
        cases hu : env.uploadOk with
        | false =>
          simp [process_file, processBody, hbk, hsub, hu] at h
          obtain ⟨h1, h2⟩ := h
          subst h1
          simp at hc
          exact ⟨hc, hc ▸ truncate_rows_le env.maxRows df⟩
        | true =>
          cases hl : env.loadOk with
          | false =>
            simp [process_file, processBody, hbk, hsub, hu, hl] at h
            obtain ⟨h1, h2⟩ := h
            subst h1
            simp at hc
            exact ⟨hc, hc ▸ truncate_rows_le env.maxRows df⟩
          | true =>
            cases hm : env.mergeOk with
            | false =>
              simp [process_file, processBody, hbk, hsub, hu, hl, hm] at h
              obtain ⟨h1, h2⟩ := h
              subst h1
              simp at hc
              exact ⟨hc, hc ▸ truncate_rows_le env.maxRows df⟩
            | true =>
              simp [process_file, processBody, hbk, hsub, hu, hl, hm] at h
              obtain ⟨h1, h2⟩ := h
              subst h1
              simp at hc
              exact ⟨hc, hc ▸ truncate_rows_le env.maxRows df⟩
  · intro hbk hnil
    have hsub : issubset required_cols (truncate env.maxRows df).columns = true := by
      rw [truncate_columns]
      exact (missingCols_eq_nil_iff df).mp hnil
    cases hu : env.uploadOk with
    | false =>
      simp [process_file, processBody, hbk, hsub, hu] at h
      obtain ⟨h1, h2⟩ := h
      subst h1
      simp
    | true =>
      cases hl : env.loadOk with
      | false =>
        simp [process_file, processBody, hbk, hsub, hu, hl] at h
        obtain ⟨h1, h2⟩ := h
        subst h1
        simp
      | true =>
        cases hm : env.mergeOk with
        | false =>
          simp [process_file, processBody, hbk, hsub, hu, hl, hm] at h
          obtain ⟨h1, h2⟩ := h
          subst h1
          simp
        | true =>
          simp [process_file, processBody, hbk, hsub, hu, hl, hm] at h
          obtain ⟨h1, h2⟩ := h
          subst h1
          simp

/-- Witness for C4 at a three-row dataframe against a cap of two rows. -/
theorem C4_witness :
    (∀ c, PipeEvent.uploadBlob c ∈ trW →
      c = truncate envW.maxRows dfW ∧ c.rows.length ≤ envW.maxRows) ∧
    (envW.bucketOk = true → missingCols dfW = [] →
      PipeEvent.uploadBlob (truncate envW.maxRows dfW) ∈ trW) ∧
    (dfW.rows.length ≤ envW.maxRows → truncate envW.maxRows dfW = dfW) ∧
    (envW.maxRows < dfW.rows.length →
      (truncate envW.maxRows dfW).rows = dfW.rows.take envW.maxRows) :=
  C4_theorem envW dfW trW PipeResult.success rfl

/-- Claim C6: column validation is exactly a set-difference check — the
missing-required-column error is raised iff the fixed required set is not
a subset of the parsed columns, the reported missing set is the required
set minus the present columns, and no validation error is raised when the
required set is a subset. -/
theorem C6_theorem (env : PipeEnv) (df : DataFrame) (hb : env.bucketOk = true) :
    (missingCols df = [] ↔ ∀ c ∈ required_cols, c ∈ df.columns) ∧
    (∀ c, c ∈ missingCols df ↔ c ∈ required_cols ∧ c ∉ df.columns) ∧
    (missingCols df ≠ [] ↔
      (processBody env (ParseResult.ok df)).2 =
        BodyOutcome.raised (Exc.valueError (missingCols df))) ∧
    (∀ m, (processBody env (ParseResult.ok df)).2 =
        BodyOutcome.raised (Exc.valueError m) → m = missingCols df) := by
  refine ⟨?_, mem_missingCols df, ?_, ?_⟩
  · rw [missingCols_eq_nil_iff]
    simp [issubset, List.all_eq_true]
  · cases hsub : issubset required_cols df.columns with
    | false =>
      have hsub2 : issubset required_cols (truncate env.maxRows df).columns = false := by
        rw [truncate_columns]; exact hsub
      have hne : missingCols df ≠ [] := by
        intro hnil
        rw [missingCols_eq_nil_iff] at hnil
        rw [hnil] at hsub
        simp at hsub
      simp [processBody, hb, hsub2, missingCols_truncate, hne]
    | true =>
      have hsub2 : issubset required_cols (truncate env.maxRows df).columns = true := by
        rw [truncate_columns]; exact hsub
      have hnil : missingCols df = [] := (missingCols_eq_nil_iff df).mpr hsub
      simp only [hnil, ne_eq, not_true_eq_false, false_iff]
      simp [processBody, hb, hsub2]
      split_ifs <;> simp
  · intro m hm
    cases hsub : issubset required_cols df.columns with
    | false =>
      have hsub2 : issubset required_cols (truncate env.maxRows df).columns = false := by
        rw [truncate_columns]; exact hsub
      simp [processBody, hb, hsub2, missingCols_truncate] at hm
      exact hm.symm
    | true =>
      have hsub2 : issubset required_cols (truncate env.maxRows df).columns = true := by
        rw [truncate_columns]; exact hsub
      simp [processBody, hb, hsub2] at hm
      split_ifs at hm <;> simp_all

/-- Witness for C6 at a concrete dataframe missing two required columns. -/
theorem C6_witness :
    (missingCols dfBad = [] ↔ ∀ c ∈ required_cols, c ∈ dfBad.columns) ∧
    (∀ c, c ∈ missingCols dfBad ↔ c ∈ required_cols ∧ c ∉ dfBad.columns) ∧
    (missingCols dfBad ≠ [] ↔
      (processBody envW (ParseResult.ok dfBad)).2 =
        BodyOutcome.raised (Exc.valueError (missingCols dfBad))) ∧
    (∀ m, (processBody envW (ParseResult.ok dfBad)).2 =
        BodyOutcome.raised (Exc.valueError m) → m = missingCols dfBad) :=
  C6_theorem envW dfBad rfl

/-- Claim C7: `process_file` never propagates an exception — every raised
exception is caught by exactly the handler Python dispatch selects (the
empty-data clause, the parser-error clause, or the catch-all), an error
message is logged, and the function returns normally. -/
theorem C7_theorem (env : PipeEnv) (parse : ParseResult) :
    (∃ tr r, process_file env parse = Except.ok (tr, r)) ∧
    (∀ e tr, processBody env parse = (tr, BodyOutcome.raised e) →
      process_file env parse =
        Except.ok (tr ++ [PipeEvent.logInsert "ERROR" (handlerLogOp (handlerFor e))],
          PipeResult.handled (handlerFor e))) ∧
    handlerFor Exc.emptyDataError = ExcHandler.emptyData ∧
    handlerFor Exc.parserError = ExcHandler.parserFmt ∧
    (∀ m, handlerFor (Exc.valueError m) = ExcHandler.catchAll) ∧
    (∀ s, handlerFor (Exc.sdkError s) = ExcHandler.catchAll) := by
  refine ⟨?_, ?_, rfl, rfl, fun m => rfl, fun s => rfl⟩
  · rcases hp : processBody env parse with ⟨tr, o⟩
    cases o with
    | earlyReturn =>
      exact ⟨tr, PipeResult.earlyReturn, by simp [process_file, hp]⟩
    | completed =>
      exact ⟨tr, PipeResult.success, by simp [process_file, hp]⟩
    | raised e =>
      exact ⟨tr ++ [PipeEvent.logInsert "ERROR" (handlerLogOp (handlerFor e))],
        PipeResult.handled (handlerFor e), by simp [process_file, hp]⟩
  · intro e tr hp
    simp [process_file, hp]

/-- Witness for C7 at a concrete empty-file upload. -/
theorem C7_witness :
    (∃ tr r, process_file envW ParseResult.emptyData = Except.ok (tr, r)) ∧
    (∀ e tr, processBody envW ParseResult.emptyData = (tr, BodyOutcome.raised e) →
      process_file envW ParseResult.emptyData =
        Except.ok (tr ++ [PipeEvent.logInsert "ERROR" (handlerLogOp (handlerFor e))],
          PipeResult.handled (handlerFor e))) ∧
    handlerFor Exc.emptyDataError = ExcHandler.emptyData ∧
    handlerFor Exc.parserError = ExcHandler.parserFmt ∧
    (∀ m, handlerFor (Exc.valueError m) = ExcHandler.catchAll) ∧
    (∀ s, handlerFor (Exc.sdkError s) = ExcHandler.catchAll) :=
  C7_theorem envW ParseResult.emptyData

/-- Detects an object-storage write event. -/
def isUpload : PipeEvent → Bool
  | PipeEvent.uploadBlob _ => true
  | _ => false

/-- Claim C8: when a step after the successful object-storage write fails
(the load job or the MERGE raises), the staged object is left in place —
the trace deletes no blob, holds exactly one upload, still holds the
uploaded object, and the run ends in the catch-all handler. -/
theorem C8_theorem (env : PipeEnv) (parse : ParseResult) (tr : List PipeEvent)
    (r : PipeResult) (c : DataFrame)
    (h : process_file env parse = Except.ok (tr, r))
    (hc : PipeEvent.uploadBlob c ∈ tr)
    (hup : env.uploadOk = true)
    (hfail : env.loadOk = false ∨ env.mergeOk = false) :
    (∀ c2, PipeEvent.deleteBlob c2 ∉ tr) ∧
    tr.countP isUpload = 1 ∧
    PipeEvent.uploadBlob c ∈ tr ∧
    r = PipeResult.handled ExcHandler.catchAll := by
  cases hbk : env.bucketOk with
  | false =>
    simp [process_file, processBody, hbk] at h
    obtain ⟨h1, h2⟩ := h
    subst h1
    simp at hc
  | true =>
    cases parse with
    | emptyData =>
      simp [process_file, processBody, hbk, handlerFor, handlerLogOp] at h
      obtain ⟨h1, h2⟩ := h
      subst h1
      simp at hc
    | parserError =>
      simp [process_file, processBody, hbk, handlerFor, handlerLogOp] at h
      obtain ⟨h1, h2⟩ := h
      subst h1
      simp at hc
    | ok df =>
      cases hsub : issubset required_cols (truncate env.maxRows df).columns with
      | false =>
        simp [process_file, processBody, hbk, hsub] at h
        obtain ⟨h1, h2⟩ := h
        subst h1
        simp at hc
      | true =>
        cases hl : env.loadOk with
        | false =>
          simp [process_file, processBody, hbk, hsub, hup, hl, handlerFor, handlerLogOp] at h
          obtain ⟨h1, h2⟩ := h
          subst h1
          subst h2
          refine ⟨by simp, by simp [List.countP_cons, isUpload], hc, rfl⟩
        | true =>
          have hm : env.mergeOk = false := by
            rcases hfail with hf | hf
            · rw [hf] at hl; exact absurd hl (by simp)
            · exact hf
          simp [process_file, processBody, hbk, hsub, hup, hl, hm, handlerFor, handlerLogOp] at h
          obtain ⟨h1, h2⟩ := h
          subst h1
          subst h2
          refine ⟨by simp, by simp [List.countP_cons, isUpload], hc, rfl⟩

/-- Environment in which the staging load job fails. -/
def envF : PipeEnv :=
  { bucketOk := true, uploadOk := true, loadOk := false, mergeOk := true,
    maxRows := 2, logEnv := { insertResult := Except.ok [] } }

/-- Trace of a run in which the load job fails after a successful upload. -/
def trF : List PipeEvent :=
  [PipeEvent.getBucket, PipeEvent.uploadBlob (truncate envF.maxRows dfW),
    PipeEvent.loadJob, PipeEvent.logInsert "ERROR" "PROCESSING"]

/-- Witness for C8 at a concrete failed load job. -/
theorem C8_witness :
    (∀ c2, PipeEvent.deleteBlob c2 ∉ trF) ∧
    trF.countP isUpload = 1 ∧
    PipeEvent.uploadBlob (truncate envF.maxRows dfW) ∈ trF ∧
    PipeResult.handled ExcHandler.catchAll = PipeResult.handled ExcHandler.catchAll :=
  C8_theorem envF (ParseResult.ok dfW) trF (PipeResult.handled ExcHandler.catchAll)
    (truncate envF.maxRows dfW) rfl (by simp [trF]) rfl (Or.inl rfl)

/-- Claim C10: `log_to_bigquery` is total and never raises — a client
failure and returned row errors are both handled internally (printed), a
clean insert logs, and the pipeline's behaviour is independent of the
logging client's behaviour. -/
theorem C10_theorem :
    (∀ env m s o, ∃ r, log_to_bigquery env m s o = Except.ok r) ∧
    (∀ env m s o e, env.insertResult = Except.error e →
      log_to_bigquery env m s o = Except.ok LogOutcome.printedFailure) ∧
    (∀ env m s o errs, env.insertResult = Except.ok errs → errs ≠ [] →
      log_to_bigquery env m s o = Except.ok LogOutcome.printedRowErrors) ∧
    (∀ env m s o, env.insertResult = Except.ok [] →
      log_to_bigquery env m s o = Except.ok LogOutcome.logged) ∧
    (∀ (env : PipeEnv) (parse : ParseResult) (le le2 : LogEnv),
      process_file { env with logEnv := le } parse =
        process_file { env with logEnv := le2 } parse) := by
  refine ⟨?_, ?_, ?_, ?_, ?_⟩
  · intro env m s o
    rcases he : env.insertResult with e | errs
    · exact ⟨LogOutcome.printedFailure, by simp [log_to_bigquery, insert_rows_json, he]⟩
    · cases errs with
      | nil => exact ⟨LogOutcome.logged, by simp [log_to_bigquery, insert_rows_json, he]⟩
      | cons a as =>
        exact ⟨LogOutcome.printedRowErrors, by simp [log_to_bigquery, insert_rows_json, he]⟩
  · intro env m s o e he
    simp [log_to_bigquery, insert_rows_json, he]
  · intro env m s o errs he hne
    cases errs with
    | nil => exact absurd rfl hne
    | cons a as => simp [log_to_bigquery, insert_rows_json, he]
  · intro env m s o he
    simp [log_to_bigquery, insert_rows_json, he]
  · intro env parse le le2
    cases env
    rfl

/-- Witness for C10 at a concrete failing logging client. -/
theorem C10_witness :
    log_to_bigquery { insertResult := Except.error "boom" } "msg" "ERROR" "PROCESSING" =
      Except.ok LogOutcome.printedFailure :=
  C10_theorem.2.1 { insertResult := Except.error "boom" } "msg" "ERROR" "PROCESSING" "boom" rfl

/-!
Part 4: facts about the MERGE semantics.
-/

theorem inWindow_some (now : Int) (s : StagingRow) (hw : inWindow now s = true) :
    ∃ t, s.dateAndTime = some t ∧ now - hours24 ≤ t := by
  unfold inWindow at hw
  cases hdt : s.dateAndTime with
  | none => rw [hdt] at hw; simp at hw
  | some t => rw [hdt] at hw; simp at hw; exact ⟨t, rfl, by omega⟩

theorem inWindow_mono (now now2 : Int) (s : StagingRow) (h : now ≤ now2)
    (hw : inWindow now2 s = true) : inWindow now s = true := by
  unfold inWindow at hw ⊢
  cases hdt : s.dateAndTime with
  | none => rw [hdt] at hw; exact hw
  | some t =>
    rw [hdt] at hw
    simp at hw ⊢
    omega

theorem matchesKey_deriveFact_self (now : Int) (j : Nat) (s : StagingRow)
    (hts : s.dateAndTime ≠ none) (hn : s.name ≠ none) (hl : s.locationId ≠ none) :
    matchesKey (deriveFact now j s) s = true := by
  obtain ⟨t, ht⟩ := Option.ne_none_iff_exists'.mp hts
  obtain ⟨n, hn2⟩ := Option.ne_none_iff_exists'.mp hn
  obtain ⟨lo, hl2⟩ := Option.ne_none_iff_exists'.mp hl
  simp [matchesKey, deriveFact, ht, hn2, hl2, sqlEq]

theorem mem_mergeInsertedAux (now : Int) (fact : List FactRow) :
    ∀ (l : List StagingRow) (id : Nat) (f : FactRow),
      f ∈ mergeInsertedAux now fact id l →
      ∃ s ∈ l, inWindow now s = true ∧
        fact.any (fun t => matchesKey t s) = false ∧
        ∃ j, id ≤ j ∧ f = deriveFact now j s := by
  intro l
  induction l with
  | nil => intro id f hf; simp [mergeInsertedAux] at hf
  | cons s rest ih =>
    intro id f hf
    simp only [mergeInsertedAux] at hf
    split_ifs at hf with hw hm
    · obtain ⟨s2, hs2, hw2, hm2, j, hj, hf2⟩ := ih (id + 1) f hf
      exact ⟨s2, List.mem_cons_of_mem _ hs2, hw2, hm2, j, by omega, hf2⟩
    · rcases List.mem_cons.mp hf with hf2 | hf2
      · exact ⟨s, List.mem_cons_self _ _, hw, by simpa using hm, id, le_rfl, hf2⟩
      · obtain ⟨s2, hs2, hw2, hm2, j, hj, hf3⟩ := ih (id + 1) f hf2
        exact ⟨s2, List.mem_cons_of_mem _ hs2, hw2, hm2, j, by omega, hf3⟩
    · obtain ⟨s2, hs2, hw2, hm2, j, hj, hf2⟩ := ih id f hf
      exact ⟨s2, List.mem_cons_of_mem _ hs2, hw2, hm2, j, hj, hf2⟩

theorem mergeInsertedAux_eq_nil (now : Int) (fact : List FactRow) :
    ∀ (l : List StagingRow),
      (∀ s ∈ l, inWindow now s = true → fact.any (fun t => matchesKey t s) = true) →
      ∀ id, mergeInsertedAux now fact id l = [] := by
  intro l
  induction l with
  | nil => intro _ id; rfl
  | cons s rest ih =>
    intro h id
    simp only [mergeInsertedAux]
    split_ifs with hw hm
    · exact ih (fun s2 hs2 => h s2 (List.mem_cons_of_mem _ hs2)) (id + 1)
    · exact absurd (h s (List.mem_cons_self _ _) hw) hm
    · exact ih (fun s2 hs2 => h s2 (List.mem_cons_of_mem _ hs2)) id

theorem mergeInsertedAux_mem_of (now : Int) (fact : List FactRow)
    (s : StagingRow) (hw : inWindow now s = true)
    (hm : fact.any (fun t => matchesKey t s) = false) :
    ∀ (l : List StagingRow) (id : Nat), s ∈ l →
      ∃ j, deriveFact now j s ∈ mergeInsertedAux now fact id l := by
  intro l
  induction l with
  | nil => intro id hs; simp at hs
  | cons a rest ih =>
    intro id hs
    rcases List.mem_cons.mp hs with heq | hs2
    · subst heq
      simp only [mergeInsertedAux]
      rw [if_pos hw, if_neg (by simp [hm])]
      exact ⟨id, List.mem_cons_self _ _⟩
    · simp only [mergeInsertedAux]
      split_ifs with hw2 hm2
      · exact ih (id + 1) hs2
      · obtain ⟨j, hj⟩ := ih (id + 1) hs2
        exact ⟨j, List.mem_cons_of_mem _ hj⟩
      · exact ih id hs2

theorem mergeInsertedAux_id_le (now : Int) (fact : List FactRow)
    (l : List StagingRow) (id : Nat) (f : FactRow)
    (hf : f ∈ mergeInsertedAux now fact id l) : id ≤ f.review_id := by
  obtain ⟨s, _, _, _, j, hj, rfl⟩ := mem_mergeInsertedAux now fact l id f hf
  exact hj

theorem mergeInsertedAux_pairwise_id (now : Int) (fact : List FactRow) :
    ∀ (l : List StagingRow) (id : Nat),
      (mergeInsertedAux now fact id l).Pairwise
        (fun a b => a.review_id ≠ b.review_id) := by
  intro l
  induction l with
  | nil => intro id; simp [mergeInsertedAux]
  | cons s rest ih =>
    intro id
    simp only [mergeInsertedAux]
    split_ifs with hw hm
    · exact ih (id + 1)
    · refine List.Pairwise.cons ?_ (ih (id + 1))
      intro b hb
      have hb2 := mergeInsertedAux_id_le now fact rest (id + 1) b hb
      show id ≠ b.review_id
      omega
    · exact ih id

theorem mergeInsertedAux_keys_nodup (now : Int) (fact : List FactRow) :
    ∀ (l : List StagingRow) (id : Nat),
      l.Pairwise (fun a b => inWindow now a = true → inWindow now b = true →
        stagingKey a ≠ stagingKey b) →
      ((mergeInsertedAux now fact id l).map factKey).Nodup := by
  intro l
  induction l with
  | nil => intro id _; simp [mergeInsertedAux]
  | cons s rest ih =>
    intro id hpw
    rcases List.pairwise_cons.mp hpw with ⟨hhead, htail⟩
    simp only [mergeInsertedAux]
    split_ifs with hw hm
    · exact ih (id + 1) htail
    · rw [List.map_cons, List.nodup_cons]
      refine ⟨?_, ih (id + 1) htail⟩
      intro hmem
      rw [List.mem_map] at hmem
      obtain ⟨b, hb, hkey⟩ := hmem
      obtain ⟨s2, hs2, hw2, _, j, _, rfl⟩ := mem_mergeInsertedAux now fact rest (id + 1) b hb
      have hk2 : stagingKey s2 = stagingKey s := hkey
      exact (hhead s2 hs2 hw hw2) hk2.symm
    · exact ih id htail

theorem mergeInsertedAux_key_disjoint (now : Int) (fact : List FactRow)
    (l : List StagingRow) (id : Nat) (f : FactRow)
    (hf : f ∈ mergeInsertedAux now fact id l)
    (hnn : ∀ s ∈ l, inWindow now s = true → s.name ≠ none ∧ s.locationId ≠ none) :
    ∀ t ∈ fact, factKey t ≠ factKey f := by
  obtain ⟨s, hs, hw, hm, j, _, rfl⟩ := mem_mergeInsertedAux now fact l id f hf
  intro t ht hkey
  have hmt : matchesKey t s = false := by
    cases hc : matchesKey t s
    · rfl
    · have h2 : fact.any (fun t2 => matchesKey t2 s) = true :=
        List.any_eq_true.mpr ⟨t, ht, hc⟩
      rw [hm] at h2
      simp at h2
  obtain ⟨hn, hl⟩ := hnn s hs hw
  obtain ⟨τ, hτ, _⟩ := inWindow_some now s hw
  obtain ⟨n, hn2⟩ := Option.ne_none_iff_exists'.mp hn
  obtain ⟨lo, hl2⟩ := Option.ne_none_iff_exists'.mp hl
  have hkey2 : (t.review_timestamp, t.customer_name, t.location_id) =
      (s.dateAndTime, s.name, s.locationId) := hkey
  rw [Prod.mk.injEq, Prod.mk.injEq] at hkey2
  obtain ⟨e1, e2, e3⟩ := hkey2
  rw [matchesKey, e1, e2, e3, hτ, hn2, hl2] at hmt
  simp [sqlEq] at hmt

/-- A staging row with a NULL customer name (the Name column is optional). -/
def sNull : StagingRow :=
  { dateAndTime := some 0, name := none, locationId := some "L1",
    rating := some 5, review := none, reply := none }

/-- A staging row with non-NULL key fields. -/
def sGood : StagingRow :=
  { dateAndTime := some 0, name := some "A", locationId := some "L1",
    rating := some 5, review := some "nice", reply := none }

/-- Claim C2 is false as stated: a staging row whose Name is NULL never
matches any fact row under SQL equality, so re-running the MERGE on the
already-reconciled batch inserts it again — the second run affects one
row, not zero. -/
theorem C2_counterexample :
    mergeAffected 0 100 (mergeResult 0 0 [] [sNull]) [sNull] = 1 ∧
    mergeAffected 0 100 (mergeResult 0 0 [] [sNull]) [sNull] ≠ 0 := by
  decide

/-- Claim C2 (amended): the MERGE re-applied to an already-reconciled
batch affects zero fact-table rows, provided every staging row inside the
24-hour window has a non-NULL customer name and location id (the window
bound forces a non-NULL timestamp); the re-run may happen at any later
current time. -/
theorem C2_theorem (now now2 : Int) (base base2 : Nat) (fact : List FactRow)
    (staging : List StagingRow)
    (hnow : now ≤ now2)
    (hkeys : ∀ s ∈ staging, inWindow now2 s = true →
      s.name ≠ none ∧ s.locationId ≠ none) :
    mergeAffected now2 base2 (mergeResult now base fact staging) staging = 0 := by
  have hnil : mergeInsertedAux now2 (mergeResult now base fact staging) base2 staging = [] := by
    apply mergeInsertedAux_eq_nil
    intro s hs hw2
    have hw : inWindow now s = true := inWindow_mono now now2 s hnow hw2
    cases hmatch : fact.any (fun t => matchesKey t s) with
    | true =>
      obtain ⟨t, ht, htm⟩ := List.any_eq_true.mp hmatch
      exact List.any_eq_true.mpr ⟨t, List.mem_append_left _ ht, htm⟩
    | false =>
      obtain ⟨j, hj⟩ := mergeInsertedAux_mem_of now fact s hw hmatch staging base hs
      obtain ⟨hn, hl⟩ := hkeys s hs hw2
      have hts : s.dateAndTime ≠ none := by
        obtain ⟨t, ht, _⟩ := inWindow_some now s hw
        rw [ht]
        simp
      refine List.any_eq_true.mpr ⟨deriveFact now j s, List.mem_append_right _ hj, ?_⟩
      exact matchesKey_deriveFact_self now j s hts hn hl
  simp [mergeAffected, mergeInserted, hnil]

/-- Witness for the amended C2: a reconciled batch with non-NULL keys is
not re-inserted by a second MERGE. -/
theorem C2_witness :
    (0 : Int) ≤ 0 ∧
    mergeAffected 0 100 (mergeResult 0 0 [] [sGood]) [sGood] = 0 :=
  ⟨le_rfl, C2_theorem 0 0 0 100 [] [sGood] le_rfl (by decide)⟩

/-- Claim C3 is false as stated: two identical rows in the staging table
are both unmatched against the pre-MERGE fact table, so one MERGE inserts
both and the fact table ends with two rows for the same
(review_timestamp, customer_name, location_id) key. -/
theorem C3_counterexample :
    ¬ uniqueKeys (mergeResult 0 0 [] [sGood, sGood]) := by
  decide

/-- Claim C3 (amended): a MERGE execution preserves uniqueness of
(review_timestamp, customer_name, location_id) in the fact table provided
the fact table satisfied it beforehand and the staging rows inside the
24-hour window have pairwise distinct keys with non-NULL name and
location id; duplicate-keyed or NULL-keyed staging rows violate it. -/
theorem C3_theorem (now : Int) (base : Nat) (fact : List FactRow)
    (staging : List StagingRow)
    (hfact : uniqueKeys fact)
    (hnn : ∀ s ∈ staging, inWindow now s = true →
      s.name ≠ none ∧ s.locationId ≠ none)
    (hdist : staging.Pairwise (fun a b => inWindow now a = true →
      inWindow now b = true → stagingKey a ≠ stagingKey b)) :
    uniqueKeys (mergeResult now base fact staging) := by
  unfold uniqueKeys mergeResult
  rw [List.map_append, List.nodup_append]
  refine ⟨hfact, mergeInsertedAux_keys_nodup now fact staging base hdist, ?_⟩
  intro a ha ha2
  rw [List.mem_map] at ha ha2
  obtain ⟨t, ht, rfl⟩ := ha
  obtain ⟨f, hf, hkey⟩ := ha2
  exact mergeInsertedAux_key_disjoint now fact staging base f hf hnn t ht hkey.symm

/-- Witness for the amended C3 at a singleton staging batch. -/
theorem C3_witness :
    uniqueKeys (mergeResult 0 0 [] [sGood]) :=
  C3_theorem 0 0 [] [sGood] (by decide) (by decide) (by decide)

/-- Claim C5: every row the MERGE inserts satisfies the derivation
contract — review_date is the date truncated from the row's timestamp,
review_length and reply_length are the lengths of the review and reply
strings (NULL on NULL input), has_review and has_reply are 1 iff the
corresponding text is non-NULL, etl_load_time is the statement's load
time, and review_id is a fresh identifier distinct from every existing id
(when the generator base is fresh) and pairwise distinct within the run. -/
theorem C5_theorem (now : Int) (base : Nat) (fact : List FactRow)
    (staging : List StagingRow)
    (hbase : ∀ t ∈ fact, t.review_id < base) :
    (∀ f ∈ mergeInserted now base fact staging,
      ∃ s ∈ staging, inWindow now s = true ∧
        f.review_date = s.dateAndTime.map extractDate ∧
        f.review_length = s.review.map String.length ∧
        f.reply_length = s.reply.map String.length ∧
        f.has_review = (if s.review = none then 0 else 1) ∧
        f.has_reply = (if s.reply = none then 0 else 1) ∧
        f.etl_load_time = now ∧
        base ≤ f.review_id ∧ (∀ t ∈ fact, t.review_id ≠ f.review_id)) ∧
    (mergeInserted now base fact staging).Pairwise
      (fun a b => a.review_id ≠ b.review_id) := by
  constructor
  · intro f hf
    obtain ⟨s, hs, hw, hm, j, hj, rfl⟩ := mem_mergeInsertedAux now fact staging base f hf
    refine ⟨s, hs, hw, rfl, rfl, rfl, rfl, rfl, rfl, hj, ?_⟩
    intro t ht
    have hlt := hbase t ht
    show t.review_id ≠ j
    omega
  · exact mergeInsertedAux_pairwise_id now fact staging base

/-- Witness for C5 at a singleton staging batch and a fresh base. -/
theorem C5_witness :
    (∀ f ∈ mergeInserted 0 5 [] [sGood],
      ∃ s ∈ [sGood], inWindow 0 s = true ∧
        f.review_date = s.dateAndTime.map extractDate ∧
        f.review_length = s.review.map String.length ∧
        f.reply_length = s.reply.map String.length ∧
        f.has_review = (if s.review = none then 0 else 1) ∧
        f.has_reply = (if s.reply = none then 0 else 1) ∧
        f.etl_load_time = 0 ∧
        5 ≤ f.review_id ∧ (∀ t ∈ ([] : List FactRow), t.review_id ≠ f.review_id)) ∧
    (mergeInserted 0 5 [] [sGood]).Pairwise
      (fun a b => a.review_id ≠ b.review_id) :=
  C5_theorem 0 5 [] [sGood] (by simp)

/-- Claim C9: every row the MERGE inserts originates from a staging row
whose Date and Time is non-NULL and no older than 24 hours before the
current time — a staging row with an older (or NULL) timestamp is never a
candidate for insertion, however it got into the staging table. -/
theorem C9_theorem (now : Int) (base : Nat) (fact : List FactRow)
    (staging : List StagingRow) (f : FactRow)
    (hf : f ∈ mergeInserted now base fact staging) :
    ∃ s ∈ staging, ∃ t, s.dateAndTime = some t ∧ now - hours24 ≤ t ∧
      f.review_timestamp = some t := by
  obtain ⟨s, hs, hw, _, j, _, rfl⟩ := mem_mergeInsertedAux now fact staging base f hf
  obtain ⟨t, hdt, hle⟩ := inWindow_some now s hw
  exact ⟨s, hs, t, hdt, hle, by simp [deriveFact, hdt]⟩

/-- Witness for C9 at a concrete inserted row. -/
theorem C9_witness :
    ∃ s ∈ [sGood], ∃ t, s.dateAndTime = some t ∧ (0 : Int) - hours24 ≤ t ∧
      (deriveFact 0 7 sGood).review_timestamp = some t :=
  C9_theorem 0 7 [] [sGood] (deriveFact 0 7 sGood) (by decide)
